import Mathlib

set_option maxRecDepth 8192

/-!
# AKsecure backend — request lifecycle and timeline engine, shallow embedding

This file embeds the ticket / service-request controllers and the Mongoose
model hooks of the repository (src/controllers/serviceRequestController.js,
src/unnamed/part_001 = ticketController.js, src/models/Ticket.js,
src/models/ServiceRequest.js, src/unnamed/part_000 = auth middleware,
src/routes/*.js) and proves the frozen claims about them.

Conventions of the embedding:
* Mongo `ObjectId`s are compared in the source via `.toString()`; they are
  modelled as `String`.
* `Date` values are compared in the source by exact instant
  (`getTime()` / `toISOString()`); they are modelled as `Nat` milliseconds.
* A JS value that may be `undefined`/`null` is an `Option`; where the source
  tests plain truthiness (`if (status)`), the empty string is treated as
  absent as well, mirroring JS falsiness, and this is noted at the use site.
* JS numbers in the id-allocation hook are IEEE-754 binary64 doubles.
  `parseIntDigits` is the mathematical integer value of the digit string
  (`none` for the empty string, whose `parseInt` is NaN); the full JS
  behaviour — rounding that value to the nearest double, `+Infinity`
  beyond the double range, double increment, and `String()` rendering
  that switches to exponential notation from `1e21` — is modelled in the
  `roundDouble`/`JsNum`/`nextTicketIdJs` layer below. The exact-integer
  hook (`nextTicketId`) is proved to agree with the JS-number hook
  whenever the parsed value stays under `2^53`
  (`nextTicketIdJs_agrees_below_doubles`), which covers every identifier
  the hook itself ever writes; the creation scenarios use it in that
  range only.
-/

/-- One line item of a service-request timeline entry
(`priceList: [{ sNo, description, price }]` in ServiceRequest.js). -/
structure PriceItem where
  sNo : Int
  description : String
  price : Int
deriving Repr, DecidableEq

/-- A timeline entry. Both schemas share `note`, `images`, `addedBy`,
`addedAt`, `seenBy`; `priceList` and `totalPrice` exist only in the
service-request schema and are never read or written by the ticket
controller, so one structure serves both variants. -/
structure TimelineEntry where
  note : String
  images : List String
  addedBy : String
  addedAt : Nat
  seenBy : List String
  priceList : List PriceItem
  totalPrice : Int
deriving Repr, DecidableEq

/-- A service-request document (src/models/ServiceRequest.js).
`id` is the Mongo `_id`; `requestId` is the human identifier `SRV-NNNNNN`.
`lat`/`lng` are irrelevant to every claim and modelled as `Int`. -/
structure SRVRequest where
  id : String
  requestId : String
  userId : String
  category : String
  title : String
  description : String
  images : List String
  status : String
  preferredVisitAt : Option Nat
  assignedVisitAt : Option Nat
  completedAt : Option Nat
  timeline : List TimelineEntry
  lat : Int
  lng : Int
  address : String
  outletName : String
  createdAt : Nat
  updatedAt : Nat
deriving Repr, DecidableEq

/-- A ticket document (src/models/Ticket.js). -/
structure Ticket where
  id : String
  ticketId : String
  userId : String
  category : String
  title : String
  description : String
  images : List String
  status : String
  preferredVisitAt : Option Nat
  assignedVisitAt : Option Nat
  timeline : List TimelineEntry
  lat : Int
  lng : Int
  viewedByAdmin : Bool
  createdAt : Nat
  updatedAt : Nat
deriving Repr, DecidableEq

/-- The authenticated principal placed on `req.user` by the `protect`
middleware (src/unnamed/part_000): `_id`, `role`, display `name`. -/
structure Actor where
  id : String
  role : String
  name : String
deriving Repr, DecidableEq

/-- Error outcomes of the handlers, keyed by the HTTP status the source
returns: 400 = `validation`, 403 = `forbidden`, 404 = `notFound`,
500 = `serverError` (the catch-all that also receives storage-layer
duplicate-key rejections). -/
inductive ApiError where
  | validation
  | forbidden
  | notFound
  | serverError
deriving Repr, DecidableEq

/-- The request state that is persisted after a handler ran: the handler's
result on success, the untouched original on any error (the source returns
the error response before any `save()` call). -/
def persistD {α : Type} (orig : α) : Except ApiError α → α
  | .ok a => a
  | .error _ => orig

/-! ## Sequence allocator (pre-validate hooks of both models) -/

/-- Embeds `lastId.replace(/\D/g, '')`: keep exactly the digit characters. -/
def digitsOf (s : String) : String :=
  ⟨s.data.filter Char.isDigit⟩

/-- The mathematical integer step of `parseInt(ds, 10)` on a digits-only
string `ds`: `none` for NaN (empty string), otherwise the exact integer
value of the digits. The conversion of this value to a JS double —
rounding, and `+Infinity` beyond the double range — is `jsParseIntDigits`
below; this exact layer equals the JS result below `2^53`. -/
def parseIntDigits (s : String) : Option Nat :=
  if s.data.isEmpty then none
  else some (s.data.foldl (fun a c => 10 * a + (c.toNat - 48)) 0)

/-- Embeds `String(n).padStart(6, '0')`. -/
def pad6 (n : Nat) : String :=
  let s := toString n
  ⟨List.replicate (6 - s.length) '0'⟩ ++ s

/-- The next sequence number, from the human identifier of the most recently
created record (`lastTicket?.ticketId`, `none` when no record exists or the
stored field is falsy):
`lastSeq = last ? parseInt(last.replace(/\D/g,''), 10) : 0;`
`nextSeq = Number.isFinite(lastSeq) ? lastSeq + 1 : 1;` —
both models use the identical hook body. This is the exact-integer layer,
equal to the JS-number layer `nextSeqJs` below `2^53`; the scenarios
proved about it stay far below that bound. -/
def nextSeqFromLast (last : Option String) : Nat :=
  match last with
  | none => 0 + 1
  | some tid =>
    if tid = "" then 0 + 1
    else
      match parseIntDigits (digitsOf tid) with
      | none => 1
      | some k => k + 1

/-- Embeds the assignment `this.ticketId = TKT- + padded nextSeq`
(Ticket.js pre-validate hook). -/
def nextTicketId (last : Option String) : String :=
  "TKT-" ++ pad6 (nextSeqFromLast last)

/-- Embeds the assignment `this.requestId = SRV- + padded nextSeq`
(ServiceRequest.js, same hook body with the `SRV-` prefix). -/
def nextRequestId (last : Option String) : String :=
  "SRV-" ++ pad6 (nextSeqFromLast last)

/-- Embeds `findOne({}).sort({ createdAt: -1 })`: a record with maximal
`createdAt`. -/
def lastCreated (store : List Ticket) : Option Ticket :=
  store.foldl
    (fun acc t =>
      match acc with
      | none => some t
      | some m => if m.createdAt ≤ t.createdAt then some t else some m)
    none

/-- The human id the pre-validate hook assigns against a given store
snapshot. The falsiness test `lastTicket?.ticketId` is folded into
`nextSeqFromLast` (a `none` or `""` stored id behaves like no record). -/
def allocTicketId (snap : List Ticket) : String :=
  nextTicketId ((lastCreated snap).map (·.ticketId))

/-- Creation of a ticket whose id was computed from the snapshot `snap`
while the insert runs against the current contents `store` (`snap = store`
when no concurrent creation interleaves). The schema declares
`ticketId: { unique: true }`, so the storage layer rejects an insert whose
id already exists; the hook and the controller contain no retry loop, so the
duplicate-key rejection propagates to the controller's catch-all, which
answers 500. -/
def createTicketFromSnapshot (snap store : List Ticket) (t : Ticket) :
    Except ApiError (List Ticket × String) :=
  let tid := allocTicketId snap
  if store.any (fun x => x.ticketId = tid) then .error .serverError
  else .ok (store ++ [{ t with ticketId := tid }], tid)

/-- Un-raced creation: the hook reads the same store the insert lands in. -/
def createTicket (store : List Ticket) (t : Ticket) :
    Except ApiError (List Ticket × String) :=
  createTicketFromSnapshot store store t

/-! ## JavaScript number semantics of the allocator

The hook computes with JS numbers, i.e. IEEE-754 binary64 doubles.
`parseIntDigits` above is the mathematical integer value of the digit
string; the Number the hook actually holds is that value rounded to the
nearest double (ties to even), `+Infinity` above the double range, and the
sequence is incremented, tested with `Number.isFinite` and rendered with
`String(...)`, which switches to exponential notation from `1e21` upward.
The exact model is proved below (`nextTicketIdJs_agrees_below_doubles`) to
coincide with this one whenever the parsed value stays below `2^53`, which
covers every identifier the hook itself ever writes. -/

/-- Fuel-driven floor of the base-2 logarithm (`fuel ≥ n` suffices). -/
def floorLog2Aux : Nat → Nat → Nat
  | 0, _ => 0
  | fuel + 1, n => if n < 2 then 0 else floorLog2Aux fuel (n / 2) + 1

/-- Floor of the base-2 logarithm of `n` (0 for `n = 0`). -/
def floorLog2 (n : Nat) : Nat := floorLog2Aux n n

/-- Round the significand of an integer of at least `2^53` to 53 bits,
ties to even: keep the top 53 bits `q` of `n`, round the remainder `r` up
when it exceeds half an ulp (or ties with `q` odd). -/
def roundSig (n : Nat) : Nat :=
  let e := floorLog2 n - 52
  let q := n / 2 ^ e
  let r := n % 2 ^ e
  if 2 ^ (e - 1) < r ∨ (r = 2 ^ (e - 1) ∧ q % 2 = 1) then (q + 1) * 2 ^ e
  else q * 2 ^ e

/-- Round a nonnegative integer to the nearest IEEE-754 binary64 value
(53-bit significand, ties to even); `none` is `+Infinity`, produced exactly
when the rounded value reaches `2^1024`. Integers below `2^53` are exact. -/
def roundDouble (n : Nat) : Option Nat :=
  if n < 2 ^ 53 then some n
  else if roundSig n < 2 ^ 1024 then some (roundSig n) else none

/-- A JS number as the hook can observe it: NaN, `+Infinity`, or a finite
nonnegative integer-valued double. -/
inductive JsNum where
  | nan
  | inf
  | fin (m : Nat)
deriving Repr, DecidableEq

/-- Full JS `parseInt(ds, 10)` on a digits-only string: NaN for the empty
string, otherwise the mathematical value converted to a double
(`+Infinity` when it exceeds the double range). -/
def jsParseIntDigits (s : String) : JsNum :=
  match parseIntDigits s with
  | none => .nan
  | some n =>
    match roundDouble n with
    | some v => .fin v
    | none => .inf

/-- The value of `lastSeq` in the hook, as a JS number: 0 when no record
exists or the stored id is falsy, otherwise `parseInt` of its digits. -/
def nextSeqNum (last : Option String) : JsNum :=
  match last with
  | none => .fin 0
  | some tid => if tid = "" then .fin 0 else jsParseIntDigits (digitsOf tid)

/-- Double addition of 1 to a finite integer double: exact sum, re-rounded. -/
def jsAdd1 (m : Nat) : JsNum :=
  match roundDouble (m + 1) with
  | some v => .fin v
  | none => .inf

/-- The value of `nextSeq`: `Number.isFinite(lastSeq) ? lastSeq + 1 : 1` —
NaN (digit-free id) and `+Infinity` (digits beyond the double range) both
fall back to 1. -/
def nextSeqJs (last : Option String) : JsNum :=
  match nextSeqNum last with
  | .fin m => jsAdd1 m
  | _ => .fin 1

/-- Drop trailing `'0'` characters. -/
def stripTrailingZeros (l : List Char) : List Char :=
  (l.reverse.dropWhile (fun c => c = '0')).reverse

/-- The mantissa part of ECMA exponential rendering: significant digits
with a decimal point after the first. -/
def mantissaOf : List Char → String
  | [] => "0"
  | [c] => ⟨[c]⟩
  | c :: rest => ⟨[c]⟩ ++ "." ++ ⟨rest⟩

/-- ECMA exponential rendering of an integer-valued double of at least
`1e21` (decimal exponent > 21): significant digits, `e+`, exponent — e.g.
`1e21` renders as `1e+21`. ECMA picks the shortest digit string that
round-trips to the same double; this model uses the exact digits with
trailing zeros stripped, which coincides on round values such as powers of
ten and in every case keeps the exponential `e+` form that the theorems
below rely on. -/
def jsExpString (m : Nat) : String :=
  mantissaOf (stripTrailingZeros (toString m).data) ++ "e+" ++
    toString ((toString m).data.length - 1)

/-- JS `String(x)` on the hook's number: `NaN`/`Infinity` spellings, exact
decimal digits below `1e21`, exponential notation from `1e21` upward (the
sub-`1e21` integer rendering is likewise shortest-round-trip in ECMA, an
all-digits string of the same form as the exact digits used here, and
identical to them below `2^53`). -/
def jsNumToString : JsNum → String
  | .nan => "NaN"
  | .inf => "Infinity"
  | .fin m => if m < 10 ^ 21 then toString m else jsExpString m

/-- JS `s.padStart(6, '0')` on an arbitrary string. -/
def padStart6 (s : String) : String :=
  ⟨List.replicate (6 - s.length) '0'⟩ ++ s

/-- The hook's assignment under full JS number semantics:
`TKT-` + `String(nextSeq).padStart(6, '0')`. -/
def nextTicketIdJs (last : Option String) : String :=
  "TKT-" ++ padStart6 (jsNumToString (nextSeqJs last))

/-- The same hook for the service-request model (`SRV-` prefix). -/
def nextRequestIdJs (last : Option String) : String :=
  "SRV-" ++ padStart6 (jsNumToString (nextSeqJs last))

/-- The identifier shape claimed by the spec: a fixed prefix followed by a
zero-padded positive sequence number. -/
def PaddedIdForm (p s : String) : Prop :=
  ∃ n, 1 ≤ n ∧ s = p ++ pad6 n

/-! ## Handlers (serviceRequestController.js / ticketController.js)

Each embedding starts after the store lookup succeeded (the claims quantify
over the found document), except the store-level operations (delete, bulk
mark-viewed, listing), which take the store itself. -/

/-- Embeds the access gate of `getServiceRequestById`: 403 unless admin or
owner, otherwise the document is returned (ticketController's
`getTicketById` has the identical gate). -/
def getServiceRequestById (actor : Actor) (r : SRVRequest) :
    Except ApiError SRVRequest :=
  if actor.role ≠ "admin" ∧ r.userId ≠ actor.id then .error .forbidden
  else .ok r

/-- Embeds the field mutations of `updateServiceRequest` (lines 139-150):
`if (status)` — a provided, truthy (non-empty) status; inside, the two
`completedAt` branches compare against the pre-assignment
`serviceRequest.status`; then `serviceRequest.status = status`; then
`if (assignedVisitAt) serviceRequest.assignedVisitAt = assignedVisitAt`
(`none` models an absent or falsy body value). -/
def updateServiceRequestCore (r : SRVRequest) (status : Option String)
    (assignedVisitAt : Option Nat) (now : Nat) : SRVRequest :=
  let r1 :=
    match status with
    | none => r
    | some s =>
      if s = "" then r
      else
        let r' :=
          if s = "Completed" ∧ r.status ≠ "Completed" then
            { r with completedAt := some now }
          else if s ≠ "Completed" ∧ r.status = "Completed" then
            { r with completedAt := none }
          else r
        { r' with status := s }
  match assignedVisitAt with
  | none => r1
  | some v => { r1 with assignedVisitAt := some v }

/-- Embeds Mongoose `document.save()` under `timestamps: true`: setting a
path to a value deep-equal to the current one does not mark the document
modified, and the timestamps plugin touches `updatedAt` only when the
document is new or modified, so saving an unchanged document writes
nothing. -/
def mongooseSave (orig r : SRVRequest) (now : Nat) : SRVRequest :=
  if r = orig then r else { r with updatedAt := now }

/-- Embeds `updateServiceRequest`: `adminOnly`-style inline role gate
(403 for non-admins), then the field mutations, then `save()`. -/
def updateServiceRequest (actor : Actor) (r : SRVRequest)
    (status : Option String) (assignedVisitAt : Option Nat) (now : Nat) :
    Except ApiError SRVRequest :=
  if actor.role ≠ "admin" then .error .forbidden
  else .ok (mongooseSave r (updateServiceRequestCore r status assignedVisitAt now) now)

/-- Embeds `updateTicket` (ticketController lines 134-187): role gate, then
an explicit `updateData` delta — status only when provided, truthy and
different; `assignedVisitAt` only when provided non-null and different by
ISO-instant comparison — and, when the delta is empty, the current ticket is
returned with no write at all. A non-empty delta goes through
`findOneAndUpdate(..., { timestamps: false })`, so `updatedAt` is untouched
either way. The returned `Bool` records whether a store write happened. -/
def updateTicket (actor : Actor) (t : Ticket) (status : Option String)
    (assignedVisitAt : Option Nat) : Except ApiError (Ticket × Bool) :=
  if actor.role ≠ "admin" then .error .forbidden
  else
    let statusUpd : Option String :=
      match status with
      | none => none
      | some s => if s ≠ "" ∧ s ≠ t.status then some s else none
    let visitUpd : Option Nat :=
      match assignedVisitAt with
      | none => none
      | some v => if t.assignedVisitAt ≠ some v then some v else none
    if statusUpd = none ∧ visitUpd = none then .ok (t, false)
    else
      let t1 := match statusUpd with
        | none => t
        | some s => { t with status := s }
      let t2 := match visitUpd with
        | none => t1
        | some v => { t1 with assignedVisitAt := some v }
      .ok (t2, true)

/-- Embeds `addComment` of serviceRequestController: `if (!note)` 400 first,
then the admin-or-owner gate, then `timeline.push({...})` and `save()`.
`totalPrice ? Number(totalPrice) : undefined` leaves the schema default 0
when absent or 0 (both falsy); an absent `priceList` round-trips as the
empty array. The timeline grew, so the saved document is modified and the
store bumps `updatedAt`. -/
def addComment (actor : Actor) (r : SRVRequest) (note : String)
    (images : List String) (priceList : List PriceItem)
    (totalPrice : Option Int) (now : Nat) : Except ApiError SRVRequest :=
  if note = "" then .error .validation
  else if actor.role ≠ "admin" ∧ r.userId ≠ actor.id then .error .forbidden
  else
    .ok { r with
          timeline := r.timeline ++
            [{ note := note, images := images, addedBy := actor.name,
               addedAt := now, seenBy := [], priceList := priceList,
               totalPrice := totalPrice.getD 0 }],
          updatedAt := now }

/-- Embeds `addComment` of ticketController (lines 228-271): identical gate
order (note validation, then admin-or-owner), then the push. -/
def addTicketComment (actor : Actor) (t : Ticket) (note : String)
    (images : List String) (now : Nat) : Except ApiError Ticket :=
  if note = "" then .error .validation
  else if actor.role ≠ "admin" ∧ t.userId ≠ actor.id then .error .forbidden
  else
    .ok { t with
          timeline := t.timeline ++
            [{ note := note, images := images, addedBy := actor.name,
               addedAt := now, seenBy := [], priceList := [],
               totalPrice := 0 }],
          updatedAt := now }

/-- Embeds `deleteServiceRequest`: find by `_id` (404 when absent), allow
when admin or owner (403 otherwise), then `findByIdAndDelete` (`_id`s are
unique in a Mongo collection, so removing every document with that `_id`
removes exactly the found one). -/
def deleteServiceRequest (actor : Actor) (store : List SRVRequest)
    (rid : String) : Except ApiError (List SRVRequest) :=
  match store.find? (fun r => r.id = rid) with
  | none => .error .notFound
  | some r =>
    if actor.role ≠ "admin" ∧ r.userId ≠ actor.id then .error .forbidden
    else .ok (store.filter (fun x => x.id ≠ rid))

/-- Result of `markReplyAsSeen` on a found document: the ownership gate and
the timeline-index lookup can fail; on success the (possibly unchanged)
document is returned together with whether `save()` ran. -/
inductive MarkSeenResult where
  | forbidden
  | notFoundEntry
  | ok (r : SRVRequest) (wrote : Bool)
deriving Repr, DecidableEq

/-- Embeds `markReplyAsSeen` of serviceRequestController (lines 299-333;
ticketController lines 344-380 are identical modulo the model): the gate is
`serviceRequest.userId.toString() !== userId.toString()` — ownership only,
the actor's role is never consulted — then `timeline[timelineIndex]`
(404 when out of bounds), then `seenBy.push(userId)` plus `save()` only when
`includes(userId)` is false (Mongoose array `includes` compares ObjectIds
by value, here plain string equality). -/
def markReplyAsSeen (r : SRVRequest) (actorId : String) (idx : Nat) :
    MarkSeenResult :=
  if r.userId ≠ actorId then .forbidden
  else
    match r.timeline[idx]? with
    | none => .notFoundEntry
    | some item =>
      if actorId ∈ item.seenBy then .ok r false
      else
        .ok { r with
              timeline := r.timeline.set idx
                { item with seenBy := item.seenBy ++ [actorId] } }
          true

/-- The persisted document after `markReplyAsSeen`: unchanged unless the
success path wrote. -/
def persistMark (orig : SRVRequest) : MarkSeenResult → SRVRequest
  | .ok r _ => r
  | _ => orig

/-- Embeds the `mark-viewed` route: the `adminOnly` middleware (part_000
lines 49-55) answers 403 for non-admins, then `markTicketsAsViewed`
(ticketController lines 323-342): 400 unless `ticketIds` is a non-empty
array (`none` models a missing or non-array body value), then
`updateMany({ _id: { $in: ticketIds } }, { $set: { viewedByAdmin: true } })`
— matched documents also get their `updatedAt` bumped by the Mongoose
query-timestamps behaviour; unmatched documents are untouched. -/
def markTicketsAsViewed (actor : Actor) (ticketIds : Option (List String))
    (store : List Ticket) (now : Nat) : Except ApiError (List Ticket) :=
  if actor.role ≠ "admin" then .error .forbidden
  else
    match ticketIds with
    | none => .error .validation
    | some ids =>
      if ids = [] then .error .validation
      else
        .ok (store.map (fun t =>
          if t.id ∈ ids then { t with viewedByAdmin := true, updatedAt := now }
          else t))

/-! ## Listing (getServiceRequests / getTickets) -/

/-- Embeds the JS idiom `parseInt(q) || dflt`: an absent or unparsable query
value (`none` models NaN as well) and an explicit 0 both fall back. -/
def parseQueryOr (dflt : Nat) : Option Nat → Nat
  | none => dflt
  | some p => if p = 0 then dflt else p

/-- Sort key of both listings, `sort({ createdAt: -1 })`: newest first. -/
def srvNewestFirst (a b : SRVRequest) : Prop :=
  b.createdAt ≤ a.createdAt

instance : DecidableRel srvNewestFirst :=
  fun a b => Nat.decLe b.createdAt a.createdAt

instance : IsTotal SRVRequest srvNewestFirst :=
  ⟨fun a b => le_total b.createdAt a.createdAt⟩

instance : IsTrans SRVRequest srvNewestFirst :=
  ⟨fun _ _ _ h₁ h₂ => le_trans h₂ h₁⟩

/-- Newest-first key for tickets. -/
def tktNewestFirst (a b : Ticket) : Prop :=
  b.createdAt ≤ a.createdAt

instance : DecidableRel tktNewestFirst :=
  fun a b => Nat.decLe b.createdAt a.createdAt

instance : IsTotal Ticket tktNewestFirst :=
  ⟨fun a b => le_total b.createdAt a.createdAt⟩

instance : IsTrans Ticket tktNewestFirst :=
  ⟨fun _ _ _ h₁ h₂ => le_trans h₂ h₁⟩

/-- The pagination response shape of `getServiceRequests`. -/
structure SrvListResponse where
  requests : List SRVRequest
  total : Nat
  page : Nat
  pages : Nat
  hasMore : Bool
deriving Repr, DecidableEq

/-- Embeds `getServiceRequests` (lines 66-99): `page`/`limit` from the query
with `|| 1` / `|| 10` fallbacks, `skip = (page-1)*limit`, owner filter for
non-admins, `sort({ createdAt: -1 }).skip(skip).limit(limit)`, and the
response metadata `total`, `pages = Math.ceil(total/limit)`,
`hasMore = page*limit < total`. The sort is modelled by insertion sort,
which agrees with any comparison sort up to ties on `createdAt`. -/
def getServiceRequests (actor : Actor) (store : List SRVRequest)
    (pageQ limitQ : Option Nat) : SrvListResponse :=
  let page := parseQueryOr 1 pageQ
  let limit := parseQueryOr 10 limitQ
  let skip := (page - 1) * limit
  let base :=
    if actor.role ≠ "admin" then store.filter (fun r => r.userId = actor.id)
    else store
  let sorted := base.insertionSort srvNewestFirst
  let total := base.length
  { requests := (sorted.drop skip).take limit
    total := total
    page := page
    pages := (total + limit - 1) / limit
    hasMore := page * limit < total }

/-- Embeds `getTickets` (ticketController lines 81-108): owner filter for
non-admins; for admins with `showAll = 'false'` only tickets not yet viewed
(`viewedByAdmin` unset-or-false; the schema default makes that
`viewedByAdmin = false` here); `sort({ createdAt: -1 })` — and no `skip` or
`limit` anywhere: the whole match set is returned. -/
def getTickets (actor : Actor) (store : List Ticket) (showAll : Bool) :
    List Ticket :=
  let base :=
    if actor.role ≠ "admin" then store.filter (fun t => t.userId = actor.id)
    else if showAll = false then store.filter (fun t => t.viewedByAdmin = false)
    else store
  base.insertionSort tktNewestFirst

/-! ## Concrete fixtures (used by witnesses and counterexamples) -/

/-- A timeline entry as `addComment` appends it. -/
def entryEx : TimelineEntry :=
  { note := "We will visit tomorrow", images := [], addedBy := "Admin ak",
    addedAt := 30, seenBy := [], priceList := [], totalPrice := 0 }

/-- A service request owned by user `u1`, one timeline entry, status `New`. -/
def srvEx : SRVRequest :=
  { id := "64a1", requestId := "SRV-000001", userId := "u1",
    category := "CCTV", title := "Camera down", description := "No feed",
    images := [], status := "New", preferredVisitAt := none,
    assignedVisitAt := none, completedAt := none, timeline := [entryEx],
    lat := 6, lng := 79, address := "12 Main St", outletName := "Outlet A",
    createdAt := 10, updatedAt := 10 }

/-- A fresh ticket before the pre-validate hook assigned its human id. -/
def tktEx0 : Ticket :=
  { id := "t0", ticketId := "", userId := "u1", category := "CCTV",
    title := "Door sensor", description := "Beeping", images := [],
    status := "New", preferredVisitAt := none, assignedVisitAt := none,
    timeline := [], lat := 6, lng := 79, viewedByAdmin := false,
    createdAt := 20, updatedAt := 20 }

/-- A stored ticket holding the first allocated human id. -/
def tktEx1 : Ticket :=
  { tktEx0 with id := "t1", ticketId := "TKT-000001", createdAt := 21 }

/-- The transient admin principal built by the auth middleware. -/
def adminActor : Actor :=
  { id := "admin-session-616b", role := "admin", name := "Admin ak" }

/-- The owner of `srvEx`. -/
def ownerActor : Actor := { id := "u1", role := "user", name := "Asha" }

/-- A non-admin user who owns nothing in the fixtures. -/
def strangerActor : Actor := { id := "u2", role := "user", name := "Mel" }

/-! ## Helper lemmas -/

/-- A save never changes `completedAt` (it can only touch `updatedAt`). -/
theorem mongooseSave_completedAt (orig r : SRVRequest) (now : Nat) :
    (mongooseSave orig r now).completedAt = r.completedAt := by
  unfold mongooseSave
  split <;> rfl

/-- Saving a document equal to the original is a no-op. -/
theorem mongooseSave_self (r : SRVRequest) (now : Nat) :
    mongooseSave r r now = r := by
  simp [mongooseSave]

/-- The `completedAt` field computed by the update mutations. -/
theorem updateServiceRequestCore_completedAt (r : SRVRequest) (s : String)
    (v : Option Nat) (now : Nat) (hs : s ≠ "") :
    (updateServiceRequestCore r (some s) v now).completedAt =
      (if s = "Completed" ∧ r.status ≠ "Completed" then some now
       else if s ≠ "Completed" ∧ r.status = "Completed" then none
       else r.completedAt) := by
  unfold updateServiceRequestCore
  by_cases h1 : s = "Completed" ∧ r.status ≠ "Completed"
  · cases v <;> simp [hs, h1.1, h1.2]
  · by_cases h2 : s ≠ "Completed" ∧ r.status = "Completed"
    · cases v <;> simp [hs, h1, h2, h2.1, h2.2]
    · cases v <;> simp [hs, h1, h2]

/-- C1: for every service request and every admin status update, a
transition to `Completed` from a non-`Completed` status sets
`completedAt = now`; a transition from `Completed` to a non-`Completed`
status clears `completedAt`; a transition between two non-`Completed`
statuses leaves `completedAt` unchanged. -/
theorem c1_completedAt_transitions (actor : Actor) (r : SRVRequest)
    (s : String) (visit : Option Nat) (now : Nat)
    (hadmin : actor.role = "admin") (hs : s ≠ "") :
    ∃ r', updateServiceRequest actor r (some s) visit now = .ok r' ∧
      (s = "Completed" → r.status ≠ "Completed" → r'.completedAt = some now) ∧
      (r.status = "Completed" → s ≠ "Completed" → r'.completedAt = none) ∧
      (s ≠ "Completed" → r.status ≠ "Completed" →
        r'.completedAt = r.completedAt) := by
  refine ⟨mongooseSave r (updateServiceRequestCore r (some s) visit now) now,
    by simp [updateServiceRequest, hadmin], ?_, ?_, ?_⟩ <;>
    intro h1 h2 <;>
    rw [mongooseSave_completedAt, updateServiceRequestCore_completedAt r s visit now hs]
  · simp [h1, h2]
  · have : ¬ (s = "Completed" ∧ r.status ≠ "Completed") := by
      rintro ⟨rfl, hc⟩; exact h2 rfl
    simp [this, h1, h2]
  · simp [h1, h2]

/-- C1 witness: completing the fixture request stamps `completedAt = 42`. -/
theorem c1_witness :
    ∃ r', updateServiceRequest adminActor srvEx (some "Completed") none 42 = .ok r' ∧
      ("Completed" = "Completed" → srvEx.status ≠ "Completed" →
        r'.completedAt = some 42) ∧
      (srvEx.status = "Completed" → "Completed" ≠ "Completed" →
        r'.completedAt = none) ∧
      ("Completed" ≠ "Completed" → srvEx.status ≠ "Completed" →
        r'.completedAt = srvEx.completedAt) :=
  c1_completedAt_transitions adminActor srvEx "Completed" none 42 (by decide) (by decide)

/-- C2: mark-seen is idempotent for the owner on an in-bounds timeline
entry: the first call returns a document on which a second identical call
returns the very same document and performs no write (`wrote = false`), and
afterwards the user id occurs exactly once in that entry's `seenBy`. The
hypothesis `hdup` is the reachable-state invariant that `seenBy` holds no
duplicates — entries start with `seenBy = []` and grow only through this
guarded push. -/
theorem c2_markSeen_idempotent (r : SRVRequest) (idx : Nat)
    (hidx : idx < r.timeline.length)
    (hdup : ∀ e ∈ r.timeline, e.seenBy.count r.userId ≤ 1) :
    ∃ r1 w e, markReplyAsSeen r r.userId idx = .ok r1 w ∧
      markReplyAsSeen r1 r.userId idx = .ok r1 false ∧
      r1.timeline[idx]? = some e ∧
      e.seenBy.count r.userId = 1 ∧
      (w = false → r1 = r) := by
  have hget : r.timeline[idx]? = some (r.timeline[idx]) :=
    List.getElem?_eq_getElem hidx
  by_cases hmem : r.userId ∈ (r.timeline[idx]).seenBy
  · refine ⟨r, false, r.timeline[idx], ?_, ?_, hget, ?_, fun _ => rfl⟩
    · simp [markReplyAsSeen, hget, hmem]
    · simp [markReplyAsSeen, hget, hmem]
    · have h1 := hdup _ (List.getElem_mem hidx)
      have h2 := List.one_le_count_iff.mpr hmem
      omega
  · refine
      ⟨{ r with
         timeline :=
           r.timeline.set idx
             { r.timeline[idx] with
               seenBy := (r.timeline[idx]).seenBy ++ [r.userId] } },
       true,
       { r.timeline[idx] with
         seenBy := (r.timeline[idx]).seenBy ++ [r.userId] },
       ?_, ?_, ?_, ?_, ?_⟩
    · simp [markReplyAsSeen, hget, hmem]
    · simp [markReplyAsSeen, List.getElem?_set_self hidx]
    · exact List.getElem?_set_self hidx
    · simp [List.count_append, List.count_eq_zero.mpr hmem]
    · intro h
      simp at h

/-- C2 witness: the owner of the fixture request marks its only entry seen;
a second call is a no-op, and the owner's id occurs once. -/
theorem c2_witness :
    ∃ r1 w e, markReplyAsSeen srvEx srvEx.userId 0 = .ok r1 w ∧
      markReplyAsSeen r1 srvEx.userId 0 = .ok r1 false ∧
      r1.timeline[0]? = some e ∧
      e.seenBy.count srvEx.userId = 1 ∧
      (w = false → r1 = srvEx) :=
  c2_markSeen_idempotent srvEx 0 (by decide) (by decide)

/-- C3 counterexample: the admin principal does not own `srvEx`, yet
mark-seen denies the call — `markReplyAsSeen` checks ownership only and
never consults the actor's role, so the claim that an admin is never denied
mark-seen on a request they do not own is false. -/
theorem c3_counterexample :
    adminActor.role = "admin" ∧ adminActor.id ≠ srvEx.userId ∧
    markReplyAsSeen srvEx adminActor.id 0 = .forbidden := by
  decide

/-- C3 (amended): an admin is allowed for read, update-status, delete,
add-comment (with a non-empty note) and bulk mark-viewed on any request,
but mark-seen is granted by ownership alone, so an admin is denied on any
request they do not own. -/
theorem c3_admin_allowed_except_markSeen (a : Actor) (r : SRVRequest)
    (store : List SRVRequest) (rid : String) (tstore : List Ticket)
    (ids : Option (List String)) (note : String) (imgs : List String)
    (pl : List PriceItem) (tp : Option Int) (st : Option String)
    (v : Option Nat) (now idx : Nat)
    (ha : a.role = "admin") (hnote : note ≠ "") :
    getServiceRequestById a r = .ok r ∧
    (∃ r', updateServiceRequest a r st v now = .ok r') ∧
    deleteServiceRequest a store rid ≠ .error .forbidden ∧
    addComment a r note imgs pl tp now ≠ .error .forbidden ∧
    markTicketsAsViewed a ids tstore now ≠ .error .forbidden ∧
    (a.id ≠ r.userId → markReplyAsSeen r a.id idx = .forbidden) := by
  refine ⟨?_,
    ⟨mongooseSave r (updateServiceRequestCore r st v now) now, ?_⟩,
    ?_, ?_, ?_, ?_⟩
  · simp [getServiceRequestById, ha]
  · simp [updateServiceRequest, ha]
  · unfold deleteServiceRequest
    cases store.find? (fun x => x.id = rid) <;> simp [ha]
  · simp [addComment, hnote, ha]
  · unfold markTicketsAsViewed
    cases ids with
    | none => simp [ha]
    | some l => by_cases hl : l = [] <;> simp [ha, hl]
  · intro hne
    simp [markReplyAsSeen, Ne.symm hne]

/-- C3 witness: the fixture admin passes every gate except mark-seen on the
request owned by `u1`. -/
theorem c3_witness :
    getServiceRequestById adminActor srvEx = .ok srvEx ∧
    (∃ r', updateServiceRequest adminActor srvEx (some "In Progress") none 42 = .ok r') ∧
    deleteServiceRequest adminActor [srvEx] "64a1" ≠ .error .forbidden ∧
    addComment adminActor srvEx "On our way" [] [] none 42 ≠ .error .forbidden ∧
    markTicketsAsViewed adminActor (some ["t1"]) [tktEx1] 42 ≠ .error .forbidden ∧
    (adminActor.id ≠ srvEx.userId → markReplyAsSeen srvEx adminActor.id 0 = .forbidden) :=
  c3_admin_allowed_except_markSeen adminActor srvEx [srvEx] "64a1" [tktEx1]
    (some ["t1"]) "On our way" [] [] none (some "In Progress") none 42 0
    (by decide) (by decide)

/-- C4 counterexample: a creation whose hook read the empty snapshot while a
concurrent creation already stored `TKT-000001` fails immediately with the
catch-all server error — it does not retry, although a single retry with a
freshly computed value (second conjunct: allocating against the current
store) would have succeeded. -/
theorem c4_counterexample :
    createTicketFromSnapshot [] [tktEx1] tktEx0 = .error .serverError ∧
    createTicketFromSnapshot [tktEx1] [tktEx1] tktEx0 =
      .ok ([tktEx1, { tktEx0 with ticketId := "TKT-000002" }], "TKT-000002") := by
  constructor <;> rfl

/-- C4 (amended): on a uniqueness-constraint collision, creation fails at
once with the server error — there is no internal retry — and the unique
index guarantees that a successful creation never carries a human id that
already exists in the store. -/
theorem c4_no_retry_no_duplicate (snap store : List Ticket) (t : Ticket) :
    ((∃ x ∈ store, x.ticketId = allocTicketId snap) →
      createTicketFromSnapshot snap store t = .error .serverError) ∧
    (∀ s' tid, createTicketFromSnapshot snap store t = .ok (s', tid) →
      (∀ x ∈ store, x.ticketId ≠ tid) ∧
      s' = store ++ [{ t with ticketId := tid }]) := by
  constructor
  · rintro ⟨x, hx, hid⟩
    have hany : store.any (fun y => y.ticketId = allocTicketId snap) = true :=
      List.any_eq_true.mpr ⟨x, hx, by simp [hid]⟩
    simp [createTicketFromSnapshot, hany]
  · intro s' tid h
    simp only [createTicketFromSnapshot] at h
    split at h
    · exact absurd h (by simp)
    · rename_i hall
      injection h with h
      have h1 : store ++ [{ t with ticketId := allocTicketId snap }] = s' ∧
          allocTicketId snap = tid := Prod.mk.injEq .. ▸ h
      obtain ⟨hs, ht⟩ := h1
      subst ht
      refine ⟨?_, hs.symm⟩
      intro x hx
      simp only [List.any_eq_true, not_exists] at hall
      have := hall x
      simp [hx] at this
      simpa using this

/-- C4 witness: the amended theorem at the concrete race (collision fails
immediately) and at the concrete successful creation (no duplicate id). -/
theorem c4_witness :
    createTicketFromSnapshot [] [tktEx1] tktEx0 = .error .serverError ∧
    ((∀ x ∈ [tktEx1], x.ticketId ≠ "TKT-000002") ∧
      [tktEx1, { tktEx0 with ticketId := "TKT-000002" }] =
        [tktEx1] ++ [{ tktEx0 with ticketId := "TKT-000002" }]) :=
  ⟨(c4_no_retry_no_duplicate [] [tktEx1] tktEx0).1 ⟨tktEx1, by decide, by decide⟩,
   (c4_no_retry_no_duplicate [tktEx1] [tktEx1] tktEx0).2
     [tktEx1, { tktEx0 with ticketId := "TKT-000002" }] "TKT-000002" rfl⟩

/-- C5 counterexample: a non-admin, non-owner actor invoking add-comment
with an empty note receives the validation error, not `Forbidden` — the
note check runs before the access gate — so the claim that such an actor
always receives `Forbidden` is false. -/
theorem c5_counterexample :
    strangerActor.role ≠ "admin" ∧ strangerActor.id ≠ srvEx.userId ∧
    addComment strangerActor srvEx "" [] [] none 50 = .error .validation ∧
    addComment strangerActor srvEx "" [] [] none 50 ≠ .error .forbidden := by
  refine ⟨by decide, by decide, rfl, fun h => ApiError.noConfusion (Except.error.inj h)⟩

/-- C5 (amended): a non-admin, non-owner actor is always denied: read,
delete and mark-seen answer `Forbidden`; add-comment answers `Forbidden`
for a non-empty note and the validation error for an empty one; and in
every case the request, its timeline and the store are unchanged. -/
theorem c5_stranger_denied (a : Actor) (r : SRVRequest) (t : Ticket)
    (store : List SRVRequest) (rid : String) (note : String)
    (imgs : List String) (pl : List PriceItem) (tp : Option Int)
    (now idx : Nat)
    (hrole : a.role ≠ "admin") (hown : a.id ≠ r.userId)
    (hownT : a.id ≠ t.userId)
    (hfind : store.find? (fun x => x.id = rid) = some r) :
    getServiceRequestById a r = .error .forbidden ∧
    (note ≠ "" → addComment a r note imgs pl tp now = .error .forbidden) ∧
    (note = "" → addComment a r note imgs pl tp now = .error .validation) ∧
    (note ≠ "" → addTicketComment a t note imgs now = .error .forbidden) ∧
    deleteServiceRequest a store rid = .error .forbidden ∧
    markReplyAsSeen r a.id idx = .forbidden ∧
    persistD r (addComment a r note imgs pl tp now) = r ∧
    persistD store (deleteServiceRequest a store rid) = store ∧
    persistMark r (markReplyAsSeen r a.id idx) = r := by
  refine ⟨?_, ?_, ?_, ?_, ?_, ?_, ?_, ?_, ?_⟩
  · simp [getServiceRequestById, hrole, Ne.symm hown]
  · intro hnote
    simp [addComment, hnote, hrole, Ne.symm hown]
  · intro hnote
    simp [addComment, hnote]
  · intro hnote
    simp [addTicketComment, hnote, hrole, Ne.symm hownT]
  · simp [deleteServiceRequest, hfind, hrole, Ne.symm hown]
  · simp [markReplyAsSeen, Ne.symm hown]
  · by_cases hnote : note = "" <;>
      simp [addComment, hnote, hrole, Ne.symm hown, persistD]
  · simp [deleteServiceRequest, hfind, hrole, Ne.symm hown, persistD]
  · simp [markReplyAsSeen, Ne.symm hown, persistMark]

/-- C5 witness: the fixture stranger is denied everywhere on the request and
ticket owned by `u1`, and nothing changes. -/
theorem c5_witness :
    getServiceRequestById strangerActor srvEx = .error .forbidden ∧
    ("hello" ≠ "" → addComment strangerActor srvEx "hello" [] [] none 50 = .error .forbidden) ∧
    ("hello" = "" → addComment strangerActor srvEx "hello" [] [] none 50 = .error .validation) ∧
    ("hello" ≠ "" → addTicketComment strangerActor tktEx1 "hello" [] 50 = .error .forbidden) ∧
    deleteServiceRequest strangerActor [srvEx] "64a1" = .error .forbidden ∧
    markReplyAsSeen srvEx strangerActor.id 0 = .forbidden ∧
    persistD srvEx (addComment strangerActor srvEx "hello" [] [] none 50) = srvEx ∧
    persistD [srvEx] (deleteServiceRequest strangerActor [srvEx] "64a1") = [srvEx] ∧
    persistMark srvEx (markReplyAsSeen srvEx strangerActor.id 0) = srvEx :=
  c5_stranger_denied strangerActor srvEx tktEx1 [srvEx] "64a1" "hello" [] [] none
    50 0 (by decide) (by decide) (by decide) (by rfl)

/-- C6: starting from an empty store, two back-to-back creations allocate
`TKT-000001` and then `TKT-000002`; in general the hook parses the digits
of the most recent record's id, increments by one and zero-pads behind the
`TKT-` prefix, and with no prior record it starts at 1. -/
theorem c6_first_two_ids (t0 t1 : Ticket) :
    createTicket [] t0 =
      .ok ([{ t0 with ticketId := "TKT-000001" }], "TKT-000001") ∧
    createTicket [{ t0 with ticketId := "TKT-000001" }] t1 =
      .ok ([{ t0 with ticketId := "TKT-000001" },
            { t1 with ticketId := "TKT-000002" }], "TKT-000002") ∧
    nextTicketId none = "TKT-000001" ∧
    (∀ last k, last ≠ "" → parseIntDigits (digitsOf last) = some k →
      nextTicketId (some last) = "TKT-" ++ pad6 (k + 1)) := by
  have halloc1 : allocTicketId [] = "TKT-000001" := by decide
  have halloc2 : allocTicketId [{ t0 with ticketId := "TKT-000001" }] = "TKT-000002" := by
    show nextTicketId (some "TKT-000001") = "TKT-000002"
    decide
  have hne : ("TKT-000001" : String) ≠ "TKT-000002" := by decide
  refine ⟨?_, ?_, by decide, ?_⟩
  · simp [createTicket, createTicketFromSnapshot, halloc1]
  · simp [createTicket, createTicketFromSnapshot, halloc2, hne]
  · intro last k hneL hk
    simp [nextTicketId, nextSeqFromLast, hneL, hk]

/-- C6 witness: the scenario at the fixture ticket, and the incrementing
conjunct at the stored id `TKT-000007`. -/
theorem c6_witness :
    createTicket [] tktEx0 =
      .ok ([{ tktEx0 with ticketId := "TKT-000001" }], "TKT-000001") ∧
    nextTicketId (some "TKT-000007") = "TKT-" ++ pad6 (7 + 1) :=
  ⟨(c6_first_two_ids tktEx0 tktEx0).1,
   (c6_first_two_ids tktEx0 tktEx0).2.2.2 "TKT-000007" 7 (by decide) (by decide)⟩

/-- C7: an update whose new status equals the current one (or is absent) and
whose new visit instant equals the current one (or is absent) returns the
document unmodified: the service-request handler's save becomes a no-op
(`updatedAt` untouched), and the ticket handler returns the current ticket
with no store write at all. -/
theorem c7_noop_update_frame (a : Actor) (r : SRVRequest) (t : Ticket)
    (st stT : Option String) (v vT : Option Nat) (now : Nat)
    (ha : a.role = "admin")
    (hst : st = none ∨ st = some r.status)
    (hv : v = none ∨ v = r.assignedVisitAt)
    (hstT : stT = none ∨ stT = some t.status)
    (hvT : vT = none ∨ vT = t.assignedVisitAt) :
    updateServiceRequest a r st v now = .ok r ∧
    updateTicket a t stT vT = .ok (t, false) := by
  constructor
  · have hcore : updateServiceRequestCore r st v now = r := by
      rcases hst with rfl | rfl <;> rcases hv with rfl | rfl
      · rfl
      · cases hx : r.assignedVisitAt with
        | none => rfl
        | some x =>
          show ({ r with assignedVisitAt := some x } : SRVRequest) = r
          rw [← hx]
      · simp only [updateServiceRequestCore]
        split_ifs with h0 h1 h2
        · rfl
        · exact absurd h1.1 h1.2
        · exact absurd h2.2 h2.1
        · rfl
      · cases hx : r.assignedVisitAt with
        | none =>
          simp only [updateServiceRequestCore]
          split_ifs with h0 h1 h2
          · rfl
          · exact absurd h1.1 h1.2
          · exact absurd h2.2 h2.1
          · rfl
        | some x =>
          simp only [updateServiceRequestCore]
          split_ifs with h0 h1 h2
          · rw [← hx]
          · exact absurd h1.1 h1.2
          · exact absurd h2.2 h2.1
          · rw [← hx]
    simp [updateServiceRequest, ha, hcore, mongooseSave_self]
  · rcases hstT with rfl | rfl <;> rcases hvT with rfl | rfl
    · simp [updateTicket, ha]
    · cases hx : t.assignedVisitAt with
      | none => simp [updateTicket, ha, hx]
      | some x => simp [updateTicket, ha, hx]
    · simp [updateTicket, ha]
    · cases hx : t.assignedVisitAt with
      | none => simp [updateTicket, ha, hx]
      | some x => simp [updateTicket, ha, hx]

/-- C7 witness: echoing the fixture request's current status `New` and the
fixture ticket's current status leaves both untouched, with no write. -/
theorem c7_witness :
    updateServiceRequest adminActor srvEx (some "New") none 77 = .ok srvEx ∧
    updateTicket adminActor tktEx1 (some "New") none = .ok (tktEx1, false) :=
  c7_noop_update_frame adminActor srvEx tktEx1 (some "New") (some "New") none none 77
    (by decide) (Or.inr (by decide)) (Or.inl rfl) (Or.inr (by decide)) (Or.inl rfl)

/-- Unfolding of the non-admin service-request listing. -/
theorem getServiceRequests_requests_eq (a : Actor) (store : List SRVRequest)
    (pageQ limitQ : Option Nat) (h : a.role ≠ "admin") :
    (getServiceRequests a store pageQ limitQ).requests =
      (((store.filter (fun r => r.userId = a.id)).insertionSort
          srvNewestFirst).drop
        ((parseQueryOr 1 pageQ - 1) * parseQueryOr 10 limitQ)).take
        (parseQueryOr 10 limitQ) := by
  simp [getServiceRequests, h]

/-- Unfolding of the non-admin ticket listing. -/
theorem getTickets_eq (a : Actor) (tstore : List Ticket) (showAll : Bool)
    (h : a.role ≠ "admin") :
    getTickets a tstore showAll =
      (tstore.filter (fun t => t.userId = a.id)).insertionSort
        tktNewestFirst := by
  simp [getTickets, h]

/-- C8 counterexample: for a non-admin owner of eleven requests, the
service-request listing returns a page of 10 (the default limit), but the
ticket listing returns all 11 matches in one call — `getTickets` applies no
`skip`/`limit` at all, so the ticket listing is not paginated. -/
theorem c8_counterexample :
    (getServiceRequests ownerActor (List.replicate 11 srvEx) none none).requests.length = 10 ∧
    (getTickets ownerActor (List.replicate 11 tktEx1) false).length = 11 := by
  constructor <;> rfl

/-- C8 (amended): for a non-admin actor both listings return only requests
they own, newest-first; the service-request listing is paginated (at most
`limit` items), while the ticket listing returns the entire owned set
unpaginated. -/
theorem c8_listing_owner_newest_first (a : Actor) (store : List SRVRequest)
    (tstore : List Ticket) (pageQ limitQ : Option Nat) (showAll : Bool)
    (hrole : a.role ≠ "admin") :
    (∀ x ∈ (getServiceRequests a store pageQ limitQ).requests,
      x.userId = a.id) ∧
    List.Sorted srvNewestFirst
      (getServiceRequests a store pageQ limitQ).requests ∧
    (getServiceRequests a store pageQ limitQ).requests.length ≤
      parseQueryOr 10 limitQ ∧
    (∀ x ∈ getTickets a tstore showAll, x.userId = a.id) ∧
    List.Sorted tktNewestFirst (getTickets a tstore showAll) ∧
    (getTickets a tstore showAll).Perm
      (tstore.filter (fun x => x.userId = a.id)) := by
  refine ⟨?_, ?_, ?_, ?_, ?_, ?_⟩
  · intro x hx
    rw [getServiceRequests_requests_eq a store pageQ limitQ hrole] at hx
    have h1 := List.mem_of_mem_drop (List.mem_of_mem_take hx)
    have h2 := (List.perm_insertionSort srvNewestFirst _).mem_iff.mp h1
    have h3 := List.mem_filter.mp h2
    simpa using h3.2
  · rw [getServiceRequests_requests_eq a store pageQ limitQ hrole]
    exact (List.sorted_insertionSort srvNewestFirst _).sublist
      ((List.take_sublist _ _).trans (List.drop_sublist _ _))
  · rw [getServiceRequests_requests_eq a store pageQ limitQ hrole]
    simp [List.length_take]
  · intro x hx
    rw [getTickets_eq a tstore showAll hrole] at hx
    have h2 := (List.perm_insertionSort tktNewestFirst _).mem_iff.mp hx
    have h3 := List.mem_filter.mp h2
    simpa using h3.2
  · rw [getTickets_eq a tstore showAll hrole]
    exact List.sorted_insertionSort tktNewestFirst _
  · rw [getTickets_eq a tstore showAll hrole]
    exact List.perm_insertionSort tktNewestFirst _

/-- C8 witness: the amended listing facts at the concrete owner and
singleton stores. -/
theorem c8_witness :
    (∀ x ∈ (getServiceRequests ownerActor [srvEx] none none).requests,
      x.userId = ownerActor.id) ∧
    List.Sorted srvNewestFirst
      (getServiceRequests ownerActor [srvEx] none none).requests ∧
    (getServiceRequests ownerActor [srvEx] none none).requests.length ≤
      parseQueryOr 10 none ∧
    (∀ x ∈ getTickets ownerActor [tktEx1] false, x.userId = ownerActor.id) ∧
    List.Sorted tktNewestFirst (getTickets ownerActor [tktEx1] false) ∧
    (getTickets ownerActor [tktEx1] false).Perm
      ([tktEx1].filter (fun x => x.userId = ownerActor.id)) :=
  c8_listing_owner_newest_first ownerActor [srvEx] [tktEx1] none none false
    (by decide)

/-- C10: bulk mark-viewed rejects a missing, non-array or empty `ticketIds`
with the validation error and changes no ticket; on a non-empty array it
sets `viewedByAdmin := true` (bumping the query timestamp) on exactly the
tickets whose id is listed and leaves every other ticket untouched. -/
theorem c10_bulk_mark_viewed (a : Actor) (store : List Ticket)
    (ids : List String) (now : Nat)
    (ha : a.role = "admin") (hids : ids ≠ []) :
    markTicketsAsViewed a none store now = .error .validation ∧
    markTicketsAsViewed a (some []) store now = .error .validation ∧
    persistD store (markTicketsAsViewed a none store now) = store ∧
    persistD store (markTicketsAsViewed a (some []) store now) = store ∧
    ∃ s', markTicketsAsViewed a (some ids) store now = .ok s' ∧
      s'.length = store.length ∧
      ∀ (i : Nat) (t : Ticket), store[i]? = some t →
        s'[i]? = some (if t.id ∈ ids then
          { t with viewedByAdmin := true, updatedAt := now } else t) := by
  refine ⟨?_, ?_, ?_, ?_,
    store.map (fun t => if t.id ∈ ids then
      { t with viewedByAdmin := true, updatedAt := now } else t),
    ?_, by simp, ?_⟩
  · simp [markTicketsAsViewed, ha]
  · simp [markTicketsAsViewed, ha]
  · simp [markTicketsAsViewed, ha, persistD]
  · simp [markTicketsAsViewed, ha, persistD]
  · simp [markTicketsAsViewed, ha, hids]
  · intro i t ht
    rw [List.getElem?_map, ht]
    rfl

/-- C10 witness: the fixture admin marks the only stored ticket viewed. -/
theorem c10_witness :
    markTicketsAsViewed adminActor none [tktEx1] 99 = .error .validation ∧
    markTicketsAsViewed adminActor (some []) [tktEx1] 99 = .error .validation ∧
    persistD [tktEx1] (markTicketsAsViewed adminActor none [tktEx1] 99) = [tktEx1] ∧
    persistD [tktEx1] (markTicketsAsViewed adminActor (some []) [tktEx1] 99) = [tktEx1] ∧
    ∃ s', markTicketsAsViewed adminActor (some ["t1"]) [tktEx1] 99 = .ok s' ∧
      s'.length = [tktEx1].length ∧
      ∀ (i : Nat) (t : Ticket), [tktEx1][i]? = some t →
        s'[i]? = some (if t.id ∈ ["t1"] then
          { t with viewedByAdmin := true, updatedAt := 99 } else t) :=
  c10_bulk_mark_viewed adminActor [tktEx1] ["t1"] 99 (by decide) (by decide)

/-! ## JS-number lemmas for the allocator -/

/-- Digit characters produced by `Nat.digitChar` below base 10. -/
theorem digitChar_isDigit : ∀ m, m < 10 → (Nat.digitChar m).isDigit = true := by
  decide

/-- Every character that `Nat.toDigitsCore` emits in base 10 is a digit. -/
theorem toDigitsCore_digits (fuel : Nat) :
    ∀ (n : Nat) (ds : List Char), (∀ c ∈ ds, c.isDigit = true) →
      ∀ c ∈ Nat.toDigitsCore 10 fuel n ds, c.isDigit = true := by
  induction fuel with
  | zero =>
    intro n ds hds c hc
    rw [show Nat.toDigitsCore 10 0 n ds = ds from rfl] at hc
    exact hds c hc
  | succ fuel ih =>
    intro n ds hds c hc
    simp only [Nat.toDigitsCore] at hc
    have hcons : ∀ c' ∈ Nat.digitChar (n % 10) :: ds, c'.isDigit = true := by
      intro c' hc'
      rcases List.mem_cons.mp hc' with rfl | hmem
      · exact digitChar_isDigit (n % 10) (Nat.mod_lt n (by norm_num))
      · exact hds c' hmem
    by_cases h : n / 10 = 0
    · rw [if_pos h] at hc
      exact hcons c hc
    · rw [if_neg h] at hc
      exact ih (n / 10) (Nat.digitChar (n % 10) :: ds) hcons c hc

/-- The decimal rendering of a natural number is all digit characters. -/
theorem toString_nat_isDigit (n : Nat) :
    ∀ c ∈ (toString n).data, c.isDigit = true := by
  have h : (toString n).data = Nat.toDigitsCore 10 (n + 1) n [] := rfl
  rw [h]
  exact toDigitsCore_digits (n + 1) n [] (by simp)

/-- A zero-padded sequence number is all digit characters. -/
theorem pad6_isDigit (n : Nat) : ∀ c ∈ (pad6 n).data, c.isDigit = true := by
  intro c hc
  have h : (pad6 n).data =
      List.replicate (6 - (toString n).length) '0' ++ (toString n).data := rfl
  rw [h] at hc
  rcases List.mem_append.mp hc with hmem | hmem
  · rw [List.eq_of_mem_replicate hmem]
    decide
  · exact toString_nat_isDigit n c hmem

/-- Character-level view of `padStart6`. -/
theorem padStart6_data (s : String) :
    (padStart6 s).data = List.replicate (6 - s.length) '0' ++ s.data := rfl

/-- Padding always yields a non-empty string. -/
theorem padStart6_ne_empty (s : String) : padStart6 s ≠ "" := by
  intro h
  have hd := congrArg String.data h
  rw [padStart6_data] at hd
  have hlen := congrArg List.length hd
  have hsl : s.length = s.data.length := rfl
  simp [List.length_append, List.length_replicate] at hlen
  omega

/-- A suffix containing the character `e` can never be a zero-padded
sequence number behind the same prefix. -/
theorem ne_padded_of_mem_e (p s : String) (hs : 'e' ∈ s.data) :
    ¬ PaddedIdForm p (p ++ s) := by
  rintro ⟨n, -, h⟩
  have hd : p.data ++ s.data = p.data ++ (pad6 n).data := congrArg String.data h
  have hse : s.data = (pad6 n).data := List.append_cancel_left hd
  rw [hse] at hs
  exact absurd (pad6_isDigit n 'e' hs) (by decide)

/-- The exponential rendering always contains the character `e`. -/
theorem mem_e_jsExpString (m : Nat) : 'e' ∈ (jsExpString m).data := by
  show 'e' ∈
    ((mantissaOf (stripTrailingZeros (toString m).data)).data ++ ['e', '+']) ++
      (toString ((toString m).data.length - 1)).data
  simp

/-- Lower bound of the fuel-driven base-2 logarithm. -/
theorem pow_floorLog2Aux_le (fuel : Nat) :
    ∀ n, 1 ≤ n → n ≤ fuel → 2 ^ floorLog2Aux fuel n ≤ n := by
  induction fuel with
  | zero =>
    intro n h1 h2
    exact absurd h2 (by omega)
  | succ fuel ih =>
    intro n h1 h2
    simp only [floorLog2Aux]
    split
    · simpa using h1
    · rename_i hge
      have hrec := ih (n / 2) (by omega) (by omega)
      rw [pow_succ]
      have := Nat.mul_le_mul_right 2 hrec
      omega

/-- Lower bound of `floorLog2`. -/
theorem pow_floorLog2_le (n : Nat) (h : 1 ≤ n) : 2 ^ floorLog2 n ≤ n :=
  pow_floorLog2Aux_le n n h (Nat.le_refl n)

/-- Rounding the significand of a positive integer never yields zero. -/
theorem one_le_roundSig (n : Nat) (hn : 1 ≤ n) : 1 ≤ roundSig n := by
  have hle : 2 ^ (floorLog2 n - 52) ≤ n :=
    le_trans (Nat.pow_le_pow_right (by norm_num) (Nat.sub_le _ _))
      (pow_floorLog2_le n hn)
  have hq : 1 ≤ n / 2 ^ (floorLog2 n - 52) :=
    (Nat.one_le_div_iff (pow_pos (by norm_num) _)).mpr hle
  simp only [roundSig]
  split <;> exact Nat.mul_pos (by omega) (pow_pos (by norm_num) _)

/-- Rounding a positive integer to a double never yields zero. -/
theorem one_le_roundDouble (n v : Nat) (hn : 1 ≤ n)
    (h : roundDouble n = some v) : 1 ≤ v := by
  unfold roundDouble at h
  by_cases h53 : n < 2 ^ 53
  · rw [if_pos h53] at h
    cases h
    exact hn
  · rw [if_neg h53] at h
    by_cases hov : roundSig n < 2 ^ 1024
    · rw [if_pos hov] at h
      cases h
      exact one_le_roundSig n hn
    · rw [if_neg hov] at h
      cases h

/-- The double increment of a finite sequence value stays at least 1. -/
theorem jsAdd1_pos (m w : Nat) (h : jsAdd1 m = .fin w) : 1 ≤ w := by
  unfold jsAdd1 at h
  cases hr : roundDouble (m + 1) with
  | some v =>
    simp only [hr] at h
    cases h
    exact one_le_roundDouble (m + 1) w (by omega) hr
  | none =>
    simp only [hr] at h
    cases h

/-- The hook's sequence value is never NaN (the `isFinite` guard replaces
NaN with 1 before the identifier is built). -/
theorem nextSeqJs_ne_nan (last : Option String) : nextSeqJs last ≠ .nan := by
  unfold nextSeqJs
  cases nextSeqNum last with
  | fin m =>
    show jsAdd1 m ≠ .nan
    unfold jsAdd1
    cases roundDouble (m + 1) <;> simp
  | nan => simp
  | inf => simp

/-- A finite sequence value is always positive. -/
theorem nextSeqJs_pos (last : Option String) (w : Nat)
    (h : nextSeqJs last = .fin w) : 1 ≤ w := by
  unfold nextSeqJs at h
  cases hn : nextSeqNum last with
  | fin m =>
    rw [hn] at h
    exact jsAdd1_pos m w h
  | nan =>
    rw [hn] at h
    have h' : JsNum.fin 1 = JsNum.fin w := h
    cases h'
    exact Nat.le_refl 1
  | inf =>
    rw [hn] at h
    have h' : JsNum.fin 1 = JsNum.fin w := h
    cases h'
    exact Nat.le_refl 1

/-- Below the double-precision range (`2^53`), the JS-number hook and the
exact-integer hook used by the creation scenarios agree: every identifier
the hook itself writes stays in this range, which is why the exact model is
faithful for the sequential-allocation claims. -/
theorem nextTicketIdJs_agrees_below_doubles (tid : String) (k : Nat)
    (hne : tid ≠ "") (hk : parseIntDigits (digitsOf tid) = some k)
    (hsmall : k + 1 < 2 ^ 53) :
    nextTicketIdJs (some tid) = nextTicketId (some tid) := by
  have hk53 : k < 2 ^ 53 := by omega
  have hr1 : roundDouble k = some k := by
    unfold roundDouble
    rw [if_pos hk53]
  have hr2 : roundDouble (k + 1) = some (k + 1) := by
    unfold roundDouble
    rw [if_pos hsmall]
  have hnum : nextSeqNum (some tid) = .fin k := by
    unfold nextSeqNum jsParseIntDigits
    simp [hne, hk, hr1]
  have hjs : nextSeqJs (some tid) = .fin (k + 1) := by
    unfold nextSeqJs jsAdd1
    simp [hnum, hr2]
  have hold : nextSeqFromLast (some tid) = k + 1 := by
    unfold nextSeqFromLast
    simp [hne, hk]
  have hlt : k + 1 < 10 ^ 21 := by
    have h2 : (2 : Nat) ^ 53 < 10 ^ 21 := by norm_num
    omega
  unfold nextTicketIdJs nextTicketId
  rw [hjs, hold]
  have hjstr : jsNumToString (.fin (k + 1)) = toString (k + 1) := by
    show (if k + 1 < 10 ^ 21 then toString (k + 1) else jsExpString (k + 1)) =
      toString (k + 1)
    rw [if_pos hlt]
  rw [hjstr]
  rfl

/-- C9 counterexample: with the most recently stored identifier holding 22
digit characters, `parseInt` yields the double `1e21`, `String` renders it
in exponential notation, and the hook assigns `TKT-01e+21` — defined, but
not of the claimed prefix-plus-zero-padded-positive-integer form. -/
theorem c9_counterexample :
    nextTicketIdJs (some "TKT-1000000000000000000000") = "TKT-01e+21" ∧
    ¬ PaddedIdForm "TKT-"
      (nextTicketIdJs (some "TKT-1000000000000000000000")) := by
  constructor
  · decide
  · have hid : nextTicketIdJs (some "TKT-1000000000000000000000") =
        "TKT-" ++ "01e+21" := by decide
    rw [hid]
    exact ne_padded_of_mem_e "TKT-" "01e+21" (by decide)

/-- C9 (amended): the hook always assigns a defined identifier and its
sequence is never NaN; a digit-free stored id, and one whose digits
overflow the double range to Infinity, fall back to sequence 1; whenever
the resulting double is below `1e21` the identifier is the prefix plus the
zero-padded positive sequence number; but a stored id whose digits reach a
finite double of at least `1e21` is rendered in exponential notation and
the identifier is not of the prefix-plus-zero-padded-integer form. -/
theorem c9_hook_defined_exponential_escape (last : Option String) :
    nextSeqJs last ≠ .nan ∧
    (∃ s : String, s ≠ "" ∧ nextTicketIdJs last = "TKT-" ++ s ∧
      nextRequestIdJs last = "SRV-" ++ s) ∧
    ((nextSeqNum last = .nan ∨ nextSeqNum last = .inf) →
      nextTicketIdJs last = "TKT-000001" ∧
      nextRequestIdJs last = "SRV-000001") ∧
    (∀ w, nextSeqJs last = .fin w → w < 10 ^ 21 →
      1 ≤ w ∧ nextTicketIdJs last = "TKT-" ++ pad6 w ∧
      nextRequestIdJs last = "SRV-" ++ pad6 w) ∧
    (∀ w, nextSeqJs last = .fin w → 10 ^ 21 ≤ w →
      ¬ PaddedIdForm "TKT-" (nextTicketIdJs last)) := by
  refine ⟨nextSeqJs_ne_nan last,
    ⟨padStart6 (jsNumToString (nextSeqJs last)), padStart6_ne_empty _, rfl, rfl⟩,
    ?_, ?_, ?_⟩
  · intro hcase
    have h1 : nextSeqJs last = .fin 1 := by
      unfold nextSeqJs
      rcases hcase with h | h <;> rw [h]
    constructor
    · show "TKT-" ++ padStart6 (jsNumToString (nextSeqJs last)) = "TKT-000001"
      rw [h1]
      decide
    · show "SRV-" ++ padStart6 (jsNumToString (nextSeqJs last)) = "SRV-000001"
      rw [h1]
      decide
  · intro w hw hlt
    have hjstr : jsNumToString (.fin w) = toString w := by
      show (if w < 10 ^ 21 then toString w else jsExpString w) = toString w
      rw [if_pos hlt]
    refine ⟨nextSeqJs_pos last w hw, ?_, ?_⟩
    · show "TKT-" ++ padStart6 (jsNumToString (nextSeqJs last)) =
        "TKT-" ++ pad6 w
      rw [hw, hjstr]
      rfl
    · show "SRV-" ++ padStart6 (jsNumToString (nextSeqJs last)) =
        "SRV-" ++ pad6 w
      rw [hw, hjstr]
      rfl
  · intro w hw hge
    have hnl : ¬ w < 10 ^ 21 := by omega
    have hjstr : jsNumToString (.fin w) = jsExpString w := by
      show (if w < 10 ^ 21 then toString w else jsExpString w) = jsExpString w
      rw [if_neg hnl]
    have hid : nextTicketIdJs last = "TKT-" ++ padStart6 (jsExpString w) := by
      show "TKT-" ++ padStart6 (jsNumToString (nextSeqJs last)) = _
      rw [hw, hjstr]
    rw [hid]
    refine ne_padded_of_mem_e _ _ ?_
    rw [padStart6_data]
    exact List.mem_append_right _ (mem_e_jsExpString w)

/-- C9 witness: a stored id below the double range yields the padded form
(`TKT-000008` from `TKT-000007`), while the 22-digit stored id drives the
sequence to the double `1e21`, whose identifier escapes the padded form. -/
theorem c9_witness :
    (1 ≤ 8 ∧ nextTicketIdJs (some "TKT-000007") = "TKT-" ++ pad6 8 ∧
      nextRequestIdJs (some "TKT-000007") = "SRV-" ++ pad6 8) ∧
    ¬ PaddedIdForm "TKT-"
      (nextTicketIdJs (some "TKT-1000000000000000000000")) :=
  ⟨(c9_hook_defined_exponential_escape (some "TKT-000007")).2.2.2.1 8
      (by decide) (by decide),
   (c9_hook_defined_exponential_escape
      (some "TKT-1000000000000000000000")).2.2.2.2 1000000000000000000000
      (by decide) (by decide)⟩
